import Mathlib

/-!
# Verification of the lastfm-edit client design

A shallow embedding of the lastfm-edit client core (session manager,
pagination engine, library browser, scrobble matcher, scrobble edit
engine).  The repository ships only the Python binding surface; the Rust
core it wraps is not part of the source tree, so the core components are
modelled from the design specification (each such definition carries a
doc comment starting with `Modelled from the spec:`).
-/

set_option autoImplicit false

namespace LastfmEdit

/-! ## Error taxonomy (spec section 7) -/

/-- Modelled from the spec: the error taxonomy of section 7 (the Rust core
defining these error kinds is not in the source tree). -/
inductive LfmError where
  | notAuthenticated
  | authError
  | invalidArgument
  | transportError
  | fetchError (page : Nat)
  | editFailed (reason : String)
  deriving DecidableEq, Repr

/-! ## Entity value types (spec section 3) -/

/-- Track value type: name, artist, optional album data, playcount, and a
timestamp present only for scrobble-log entries. -/
structure Track where
  name : String
  artist : String
  album : Option String := none
  album_artist : Option String := none
  playcount : Nat := 0
  timestamp : Option Nat := none
  deriving DecidableEq, Repr

/-- Album value type. -/
structure Album where
  name : String
  artist : String
  playcount : Nat := 0
  deriving DecidableEq, Repr

/-- Artist value type. -/
structure Artist where
  name : String
  playcount : Nat := 0
  deriving DecidableEq, Repr

/-! ## Session manager (spec section 4.1) -/

/-- Modelled from the spec: the `Session` snapshot owned by the Session
Manager; `token` stands for the authentication cookie/token material. -/
structure Session where
  username : String
  base_url : String
  token : String
  deriving DecidableEq, Repr

/-- Modelled from the spec: client state is the (possibly absent) current
session owned by the Session Manager. -/
structure ClientState where
  session : Option Session
  deriving DecidableEq, Repr

/-- Modelled from the spec: the backend environment seen by the Session
Manager: which credential pairs the login endpoint accepts, and which
session tokens the authenticated-probe endpoint still accepts. -/
structure AuthBackend where
  validCreds : String → String → Bool
  tokenAccepted : String → Bool

/-- Modelled from the spec: the token material the login exchange stores
for a credential pair. -/
def mkToken (username password : String) : String :=
  String.append (String.append username ":") password

def defaultBaseUrl : String := "https://www.last.fm"

/-- Modelled from the spec: `login(username, password)` performs the
credential exchange; on success it stores the resulting session, on
rejection it fails with `AuthError` and leaves the prior state intact. -/
def login (w : AuthBackend) (st : ClientState) (username password : String) :
    Except LfmError Unit × ClientState :=
  if w.validCreds username password then
    (Except.ok (),
     { session := some { username := username, base_url := defaultBaseUrl,
                         token := mkToken username password } })
  else
    (Except.error LfmError.authError, st)

/-- `username()` exposes the identity; fails with `NotAuthenticated` when
no session is established. -/
def username (st : ClientState) : Except LfmError String :=
  match st.session with
  | none => Except.error LfmError.notAuthenticated
  | some s => Except.ok s.username

/-- `get_session()` returns the immutable session snapshot; fails with
`NotAuthenticated` when none exists. -/
def get_session (st : ClientState) : Except LfmError Session :=
  match st.session with
  | none => Except.error LfmError.notAuthenticated
  | some s => Except.ok s

/-- Modelled from the spec: `validate_session()` issues a lightweight
authenticated probe; returns false when the session is no longer
accepted, and throws `TransportError` only when the probe cannot be
attempted at all (no session exists). -/
def validate_session (w : AuthBackend) (st : ClientState) : Except LfmError Bool :=
  match st.session with
  | none => Except.error LfmError.transportError
  | some s => Except.ok (w.tokenAccepted s.token)

/-! ## Pagination engine (spec section 4.2)

The backend is modelled as a finite list of decoded pages; a fetch of a
page past the end of the list returns an empty page.  The engine returns
both the yielded entities and a request trace: one `(page_number,
entities_yielded_from_that_page)` pair per page request issued, in
request order. -/

/-- Modelled from the spec: the pagination engine loop.  `limit = some n`
stops after `n` entities even mid-page; `none` means no explicit limit.
Either bound ends with the backend signaling an empty/short page (fewer
entities than the expected page size) — whichever occurs first.  The
second component of the result is the request trace. -/
def paginateAux {α : Type} (pageSize : Nat) :
    Option Nat → Nat → List (List α) → List α × List (Nat × Nat)
  | _, pageNo, [] => ([], [(pageNo, 0)])
  | some n, pageNo, p :: rest =>
    if n ≤ p.length then (p.take n, [(pageNo, n)])
    else if p.length < pageSize then (p, [(pageNo, p.length)])
    else
      let r := paginateAux pageSize (some (n - p.length)) (pageNo + 1) rest
      (p ++ r.1, (pageNo, p.length) :: r.2)
  | none, pageNo, p :: rest =>
    if p.length < pageSize then (p, [(pageNo, p.length)])
    else
      let r := paginateAux pageSize none (pageNo + 1) rest
      (p ++ r.1, (pageNo, p.length) :: r.2)

/-- Run the pagination engine from page 1. -/
def paginate {α : Type} (pages : List (List α)) (pageSize : Nat)
    (limit : Option Nat) : List α × List (Nat × Nat) :=
  paginateAux pageSize limit 1 pages

/-! ## Library browser (spec section 4.3) -/

/-- Modelled from the spec: the shared library-browser entry point.  All
browsing calls require a valid session (`NotAuthenticated` otherwise,
before issuing any request); a negative `limit` is a caller error
(`InvalidArgument`, before issuing any request); `limit` of zero means
exhaust all available pages. -/
def browse {α : Type} (st : ClientState) (pages : List (List α))
    (pageSize : Nat) (limit : Int) :
    Except LfmError (List α) × List (Nat × Nat) :=
  match st.session with
  | none => (Except.error LfmError.notAuthenticated, [])
  | some _ =>
    if limit < 0 then (Except.error LfmError.invalidArgument, [])
    else
      let lim : Option Nat := if limit = 0 then none else some limit.toNat
      let r := paginate pages pageSize lim
      (Except.ok r.1, r.2)

/-- Modelled from the spec: the page-decoded backend the library browser
reads. `artistTrackPages` is keyed by the artist the call is scoped to. -/
structure LibraryBackend where
  recentTrackPages : List (List Track)
  artistPages : List (List Artist)
  albumPages : List (List Album)
  artistTrackPages : String → List (List Track)
  pageSize : Nat

/-- Modelled from the spec: `get_recent_tracks(limit)`. -/
def get_recent_tracks (st : ClientState) (b : LibraryBackend) (limit : Int) :
    Except LfmError (List Track) × List (Nat × Nat) :=
  browse st b.recentTrackPages b.pageSize limit

/-- Modelled from the spec: `get_artists(limit)`. -/
def get_artists (st : ClientState) (b : LibraryBackend) (limit : Int) :
    Except LfmError (List Artist) × List (Nat × Nat) :=
  browse st b.artistPages b.pageSize limit

/-- Modelled from the spec: `get_albums(limit)`. -/
def get_albums (st : ClientState) (b : LibraryBackend) (limit : Int) :
    Except LfmError (List Album) × List (Nat × Nat) :=
  browse st b.albumPages b.pageSize limit

/-- Modelled from the spec: `get_artist_tracks(artist, limit)`. -/
def get_artist_tracks (st : ClientState) (b : LibraryBackend)
    (artist : String) (limit : Int) :
    Except LfmError (List Track) × List (Nat × Nat) :=
  browse st (b.artistTrackPages artist) b.pageSize limit

/-- Modelled from the spec: `get_recent_scrobbles(page)` is a single-page
direct fetch with no pagination loop; it requires a valid session. -/
def get_recent_scrobbles (st : ClientState)
    (scrobblePage : Nat → List Track) (page : Nat) :
    Except LfmError (List Track) :=
  match st.session with
  | none => Except.error LfmError.notAuthenticated
  | some _ => Except.ok (scrobblePage page)

/-! ## Scrobble matcher (spec section 4.4) -/

/-- True for the whitespace characters the matcher normalizes away. -/
def isWs (c : Char) : Bool :=
  c = ' ' || c = '\t' || c = '\n' || c = '\r'

/-- Splits a character sequence on whitespace, dropping empty words;
`acc` carries the current word reversed. -/
def splitWsAux : List Char → List Char → List (List Char)
  | [], acc => if acc.isEmpty then [] else [acc.reverse]
  | c :: cs, acc =>
    if isWs c then
      (if acc.isEmpty then splitWsAux cs [] else acc.reverse :: splitWsAux cs [])
    else splitWsAux cs (c :: acc)

/-- Modelled from the spec: case-insensitive, whitespace-normalized form
of a display string (lowercased, surrounding whitespace stripped and
internal whitespace runs collapsed to single spaces). -/
def normalizeStr (s : String) : String :=
  String.mk (List.intercalate [' '] (splitWsAux (s.data.map Char.toLower) []))

/-- Modelled from the spec: a stored scrobble record matches the query
when its track field matches the queried track name and its artist field
matches the queried artist name, under normalization — field to field,
never positionally swapped. -/
def trackMatches (track_name artist_name : String) (t : Track) : Bool :=
  normalizeStr t.name = normalizeStr track_name &&
    normalizeStr t.artist = normalizeStr artist_name

/-- Modelled from the spec: the page walk of the scrobble matcher over
the first `max_pages` fetch results, in page order: a fetch error is
propagated as-is, the first matching record short-circuits the walk, and
an exhausted walk returns `none` (not an error). -/
def findScrobbleAux (track_name artist_name : String) :
    List (Except LfmError (List Track)) → Except LfmError (Option Track)
  | [] => Except.ok none
  | Except.error e :: _ => Except.error e
  | Except.ok pg :: rest =>
    match pg.find? (trackMatches track_name artist_name) with
    | some t => Except.ok (some t)
    | none => findScrobbleAux track_name artist_name rest

/-- Modelled from the spec: `find_recent_scrobble_for_track(track_name,
artist_name, max_pages)` walks `get_recent_scrobbles` page by page,
starting at page 1, up to `max_pages`. -/
def find_recent_scrobble_for_track
    (fetch : Nat → Except LfmError (List Track))
    (track_name artist_name : String) (max_pages : Nat) :
    Except LfmError (Option Track) :=
  findScrobbleAux track_name artist_name
    ((List.range max_pages).map (fun i => fetch (i + 1)))

/-! ## Scrobble edit data model (spec sections 3, 6) -/

/-- Match-criteria scope of a `ScrobbleEdit`. -/
inductive EditScope where
  | artistOnly
  | trackArtist
  | trackArtistAlbum
  deriving DecidableEq, Repr

/-- Modelled from the spec: the `ScrobbleEdit` descriptor — match
criteria, old values for the matched fields, new values for the
rewritten fields, and an optional timestamp-scope filter. -/
structure ScrobbleEdit where
  scope : EditScope
  oldArtist : String
  oldTrack : Option String := none
  oldAlbum : Option String := none
  newArtist : Option String := none
  newTrack : Option String := none
  newAlbum : Option String := none
  timestampFilter : Option Nat := none
  deriving DecidableEq, Repr

/-- Modelled from the spec: an edit is a no-op when no rewritten field
differs from the corresponding old value (a supplied new value equal to
the old value, or no new value at all, changes nothing). -/
def ScrobbleEdit.isNoOp (e : ScrobbleEdit) : Bool :=
  (match e.newArtist with
   | some a => a = e.oldArtist
   | none => true) &&
  (match e.newTrack, e.oldTrack with
   | some t, some o => t = o
   | some _, none => false
   | none, _ => true) &&
  (match e.newAlbum, e.oldAlbum with
   | some al, some o => al = o
   | some _, none => false
   | none, _ => true)

/-- Modelled from the spec: `ScrobbleEdit.for_artist(old, new)` rewrites
an artist name across all matching scrobbles; a no-op construction
(old equal to new) is rejected with `InvalidArgument`. -/
def ScrobbleEdit.for_artist (old_name new_name : String) :
    Except LfmError ScrobbleEdit :=
  if old_name = new_name then Except.error LfmError.invalidArgument
  else
    Except.ok { scope := EditScope.artistOnly, oldArtist := old_name,
                newArtist := some new_name }

/-- Modelled from the spec: `ScrobbleEdit.from_track_and_artist(track,
artist)` narrows the match to one track by one artist; rename target
fields are supplied separately, so construction stores only the old
values and never fails. -/
def ScrobbleEdit.from_track_and_artist (track_name artist_name : String) :
    Except LfmError ScrobbleEdit :=
  Except.ok { scope := EditScope.trackArtist, oldArtist := artist_name,
              oldTrack := some track_name }

/-! ## Edit response (spec sections 3, 4.5, 6) -/

/-- Outcome of one intended match of a submitted edit. -/
inductive MatchOutcome where
  | success
  | skipped
  | failed (reason : String)
  deriving DecidableEq, Repr

def MatchOutcome.isSuccess : MatchOutcome → Bool
  | MatchOutcome.success => true
  | _ => false

/-- One per-match entry of an `EditResponse`: the matched scrobble
identity and its outcome. -/
structure MatchResult where
  scrobbleId : Nat
  outcome : MatchOutcome
  deriving DecidableEq, Repr

/-- Modelled from the spec: the structured `EditResponse` assembled by
the Scrobble Edit Engine. -/
structure EditResponse where
  overall_success : Bool
  matched_count : Nat
  edited_count : Nat
  outcomes : List MatchResult
  deriving DecidableEq, Repr

/-- The boolean `success()` accessor of the response surface. -/
def EditResponse.success (r : EditResponse) : Bool :=
  r.overall_success

/-! ## Scrobble edit engine (spec section 4.5, section 9) -/

/-- Modelled from the spec: the response classifier's tagged variant over
the backend's HTML form re-render: unambiguous success, unambiguous
rejection (validation error surfaced by the backend), or ambiguous. -/
inductive Classified where
  | success
  | rejected (reason : String)
  | ambiguous
  deriving DecidableEq, Repr

/-- Modelled from the spec: whether a re-fetched scrobble shows the new
values of the edit (every supplied new field appears on the record). -/
def editAppliedTo (e : ScrobbleEdit) (t : Track) : Bool :=
  (match e.newArtist with
   | some a => t.artist = a
   | none => true) &&
  (match e.newTrack with
   | some n => t.name = n
   | none => true) &&
  (match e.newAlbum with
   | some al => t.album = some al
   | none => true)

/-- Modelled from the spec: the follow-up read-verification step for an
ambiguous response: re-fetch a sample of matching scrobbles and check
whether the new values appear. -/
def verifyEdit (e : ScrobbleEdit) (sample : List Track) : Bool :=
  sample.any (editAppliedTo e)

/-- Modelled from the spec: assembling the `EditResponse` from the
classified backend response, the intended matches, and the re-fetched
verification sample.  An ambiguous response is treated as partial or
unknown success and reported as success only after the read-verification
is positive; `overall_success` is true only if every intended match
resolved to success. -/
def assembleResponse (e : ScrobbleEdit) (matched : List Nat)
    (c : Classified) (sample : List Track) : EditResponse :=
  match c with
  | Classified.success =>
    { overall_success := true, matched_count := matched.length,
      edited_count := matched.length,
      outcomes := matched.map (fun i => ⟨i, MatchOutcome.success⟩) }
  | Classified.rejected r =>
    { overall_success := false, matched_count := matched.length,
      edited_count := 0,
      outcomes := matched.map (fun i => ⟨i, MatchOutcome.failed r⟩) }
  | Classified.ambiguous =>
    if verifyEdit e sample then
      { overall_success := true, matched_count := matched.length,
        edited_count := matched.length,
        outcomes := matched.map (fun i => ⟨i, MatchOutcome.success⟩) }
    else
      { overall_success := false, matched_count := matched.length,
        edited_count := 0,
        outcomes := matched.map
          (fun i => ⟨i, MatchOutcome.failed "ambiguous-unverified"⟩) }

/-- What one submission attempt comes back with, as seen by the retry
policy: an accepted exchange carrying the classified response, or one of
the transient/validation failure classes. -/
inductive SubmitSignal where
  | accepted (matched : List Nat) (c : Classified)
  | rateLimited
  | transportFail
  | sessionExpired
  | validationRejected (reason : String)
  deriving Repr

/-- Final outcome of a submission run. -/
inductive SubmitOutcome where
  | response (r : EditResponse)
  | invalidArgument
  | editFailed (reason : String)
  deriving DecidableEq, Repr

/-- The engine's default maximum retry count. -/
def defaultMaxRetries : Nat := 3

/-- Modelled from the spec: the retry loop after the one silent re-login
has been spent.  Rate-limit and transport signals consume one retry
(after backoff) up to the remaining budget, then fail with
`exhausted_retries`; a second session-expired signal is a failure
(re-login is used at most once); validation-class rejections are never
retried.  The second result component is the attempt count. -/
def submitAfterRelogin (respond : Nat → SubmitSignal) (e : ScrobbleEdit)
    (sample : List Track) : Nat → Nat → SubmitOutcome × Nat
  | retriesLeft, attempt =>
    match respond attempt, retriesLeft with
    | SubmitSignal.accepted matched c, _ =>
      (SubmitOutcome.response (assembleResponse e matched c sample), attempt + 1)
    | SubmitSignal.validationRejected r, _ =>
      (SubmitOutcome.editFailed (String.append "rejected:" r), attempt + 1)
    | SubmitSignal.rateLimited, 0 =>
      (SubmitOutcome.editFailed "exhausted_retries", attempt + 1)
    | SubmitSignal.rateLimited, n + 1 =>
      submitAfterRelogin respond e sample n (attempt + 1)
    | SubmitSignal.transportFail, 0 =>
      (SubmitOutcome.editFailed "exhausted_retries", attempt + 1)
    | SubmitSignal.transportFail, n + 1 =>
      submitAfterRelogin respond e sample n (attempt + 1)
    | SubmitSignal.sessionExpired, _ =>
      (SubmitOutcome.editFailed "session_expired", attempt + 1)

/-- Modelled from the spec: the bounded retry loop of the edit engine.
`respond n` is the backend's signal on attempt number `n` (numbered from
0).  Rate-limit and transport signals consume one retry (after backoff)
up to the retry budget, then fail with `exhausted_retries`; the first
session-expired signal triggers a silent re-login and exactly one
resubmission run in which re-login is no longer available
(`submitAfterRelogin`); validation-class rejections are never retried.
The second result component counts the attempts made. -/
def submitAttempts (respond : Nat → SubmitSignal) (e : ScrobbleEdit)
    (sample : List Track) : Nat → Nat → SubmitOutcome × Nat
  | retriesLeft, attempt =>
    match respond attempt, retriesLeft with
    | SubmitSignal.accepted matched c, _ =>
      (SubmitOutcome.response (assembleResponse e matched c sample), attempt + 1)
    | SubmitSignal.validationRejected r, _ =>
      (SubmitOutcome.editFailed (String.append "rejected:" r), attempt + 1)
    | SubmitSignal.rateLimited, 0 =>
      (SubmitOutcome.editFailed "exhausted_retries", attempt + 1)
    | SubmitSignal.rateLimited, n + 1 =>
      submitAttempts respond e sample n (attempt + 1)
    | SubmitSignal.transportFail, 0 =>
      (SubmitOutcome.editFailed "exhausted_retries", attempt + 1)
    | SubmitSignal.transportFail, n + 1 =>
      submitAttempts respond e sample n (attempt + 1)
    | SubmitSignal.sessionExpired, n =>
      submitAfterRelogin respond e sample n (attempt + 1)

/-- Modelled from the spec: `edit_scrobble` validates synchronously (a
no-op edit, or a track-level edit missing its track, is rejected with
`InvalidArgument` before any submission), then runs the bounded
submission loop with the default retry budget. -/
def edit_scrobble (respond : Nat → SubmitSignal) (sample : List Track)
    (e : ScrobbleEdit) : SubmitOutcome × Nat :=
  if e.isNoOp then (SubmitOutcome.invalidArgument, 0)
  else if e.scope ≠ EditScope.artistOnly && e.oldTrack = none then
    (SubmitOutcome.invalidArgument, 0)
  else submitAttempts respond e sample defaultMaxRetries 0

/-! ## Iterating a browsing call twice (spec sections 4.2, 8)

The browsing sequences are single-pass over live network state and hold
no cache across sequence instances; running the same call twice is two
independent runs, whose request traces are concatenated here so the
combined request stream can be inspected. -/

/-- Two successive runs of the same browsing call; the second component
is the combined request trace in issue order. -/
def iterate_twice {α : Type} (st : ClientState) (pages : List (List α))
    (pageSize : Nat) (limit : Int) :
    (Except LfmError (List α) × Except LfmError (List α)) × List (Nat × Nat) :=
  let r1 := browse st pages pageSize limit
  let r2 := browse st pages pageSize limit
  ((r1.1, r2.1), r1.2 ++ r2.2)

/-! ## Concrete demonstration backend

A fake backend serving 3 pages of 2 artists each (page size 2), with no
explicit end-of-pages marker, as in the end-to-end scenario of spec
section 8, plus a logged-in client over it. -/

def demoArtistPages : List (List Artist) :=
  [[⟨"a1", 1⟩, ⟨"a2", 2⟩], [⟨"a3", 3⟩, ⟨"a4", 4⟩], [⟨"a5", 5⟩, ⟨"a6", 6⟩]]

def demoBackend : LibraryBackend :=
  { recentTrackPages := [], artistPages := demoArtistPages,
    albumPages := [], artistTrackPages := fun _ => [], pageSize := 2 }

def demoSession : Session :=
  { username := "alice", base_url := defaultBaseUrl,
    token := mkToken "alice" "hunter2" }

def demoClient : ClientState := { session := some demoSession }

/-- The five artists the limited scenario yields. -/
def demoFirstFive : List Artist :=
  [⟨"a1", 1⟩, ⟨"a2", 2⟩, ⟨"a3", 3⟩, ⟨"a4", 4⟩, ⟨"a5", 5⟩]

/-- A concrete non-no-op artist rename used to exercise the edit engine. -/
def demoEdit : ScrobbleEdit :=
  { scope := EditScope.artistOnly, oldArtist := "Old Artist",
    newArtist := some "New Artist" }

/-- A concrete authentication backend accepting a single credential pair
and the token minted from it. -/
def demoAuthBackend : AuthBackend :=
  { validCreds := fun u p => u = "alice" && p = "hunter2",
    tokenAccepted := fun t => t = mkToken "alice" "hunter2" }

/-- A recent scrobble that does not match the demo query. -/
def demoScrobble1 : Track :=
  { name := "Paranoid Android", artist := "radiohead", timestamp := some 100 }

/-- The stored scrobble the demo query matches under normalization:
track field `"creep"`, artist field `"radiohead"`. -/
def demoScrobble2 : Track :=
  { name := "creep", artist := "radiohead", timestamp := some 90 }

/-- A recent-scrobbles fetch serving one non-matching record on page 1
and the matching record on page 2. -/
def demoFetch : Nat → Except LfmError (List Track) := fun n =>
  if n = 1 then Except.ok [demoScrobble1]
  else if n = 2 then Except.ok [demoScrobble2]
  else Except.ok []

end LastfmEdit

namespace LastfmEdit

/-! ## Pagination engine lemmas -/

theorem paginateAux_length_le {α : Type} (ps : Nat) :
    ∀ (pages : List (List α)) (n k : Nat),
      (paginateAux ps (some n) k pages).1.length ≤ n := by
  intro pages
  induction pages with
  | nil => intro n k; simp [paginateAux]
  | cons p rest ih =>
    intro n k
    by_cases h1 : n ≤ p.length
    · simp only [paginateAux, if_pos h1, List.length_take]
      omega
    · by_cases h2 : p.length < ps
      · simp [paginateAux, h1, h2]
        omega
      · have h := ih (n - p.length) (k + 1)
        simp only [paginateAux, if_neg h1, if_neg h2, List.length_append]
        omega

theorem paginateAux_lt_eq_unbounded {α : Type} (ps : Nat) :
    ∀ (pages : List (List α)) (n k : Nat),
      (paginateAux ps (some n) k pages).1.length < n →
      (paginateAux ps (some n) k pages).1 = (paginateAux ps none k pages).1 := by
  intro pages
  induction pages with
  | nil => intro n k _; simp [paginateAux]
  | cons p rest ih =>
    intro n k hlt
    by_cases h1 : n ≤ p.length
    · exfalso
      simp only [paginateAux, if_pos h1, List.length_take] at hlt
      omega
    · by_cases h2 : p.length < ps
      · simp [paginateAux, h1, h2]
      · have hlt2 :
            (paginateAux ps (some (n - p.length)) (k + 1) rest).1.length <
              n - p.length := by
          simp only [paginateAux, if_neg h1, if_neg h2, List.length_append] at hlt
          omega
        have h := ih (n - p.length) (k + 1) hlt2
        simp [paginateAux, h1, h2, h]

theorem paginateAux_trace_head {α : Type} (ps : Nat) (lim : Option Nat)
    (k : Nat) (pages : List (List α)) :
    ((paginateAux ps lim k pages).2.head?.map Prod.fst) = some k := by
  cases pages with
  | nil => cases lim <;> simp [paginateAux]
  | cons p rest =>
    cases lim with
    | none =>
      simp only [paginateAux]
      split_ifs <;> simp
    | some n =>
      simp only [paginateAux]
      split_ifs <;> simp

theorem paginateAux_length_eq_trace_sum {α : Type} (ps : Nat) :
    ∀ (pages : List (List α)) (lim : Option Nat) (k : Nat),
      (paginateAux ps lim k pages).1.length =
        ((paginateAux ps lim k pages).2.map Prod.snd).sum := by
  intro pages
  induction pages with
  | nil => intro lim k; cases lim <;> simp [paginateAux]
  | cons p rest ih =>
    intro lim k
    cases lim with
    | none =>
      simp only [paginateAux]
      split_ifs with h1
      · simp
      · simp only [List.length_append, List.map_cons, List.sum_cons]
        rw [ih none (k + 1)]
    | some n =>
      simp only [paginateAux]
      split_ifs with h1 h2
      · simp [List.length_take]
        omega
      · simp
      · simp only [List.length_append, List.map_cons, List.sum_cons]
        rw [ih (some (n - p.length)) (k + 1)]

/-! ## Scrobble matcher lemmas -/

theorem findScrobbleAux_map_ok (t a : String) :
    ∀ pgsl : List (List Track),
      findScrobbleAux t a (pgsl.map Except.ok) =
        Except.ok (pgsl.flatten.find? (trackMatches t a)) := by
  intro pgsl
  induction pgsl with
  | nil => simp [findScrobbleAux]
  | cons p rest ih =>
    simp only [List.map_cons, findScrobbleAux, List.flatten_cons,
      List.find?_append]
    cases hf : p.find? (trackMatches t a) with
    | some x => simp [hf]
    | none => simp [hf, ih]

theorem findScrobbleAux_error (t a : String) (e : LfmError) :
    ∀ (pgsl : List (List Track)) (rest : List (Except LfmError (List Track))),
      (∀ p ∈ pgsl, p.find? (trackMatches t a) = none) →
      findScrobbleAux t a (pgsl.map Except.ok ++ Except.error e :: rest) =
        Except.error e := by
  intro pgsl
  induction pgsl with
  | nil => intro rest _; simp [findScrobbleAux]
  | cons p ps ih =>
    intro rest h
    have hp : p.find? (trackMatches t a) = none := h p (by simp)
    simp only [List.map_cons, List.cons_append, findScrobbleAux, hp]
    exact ih rest (fun q hq => h q (by simp [hq]))

/-! ## Edit engine lemmas -/

theorem assembleResponse_success_all (e : ScrobbleEdit) (matched : List Nat)
    (c : Classified) (sample : List Track) :
    (assembleResponse e matched c sample).success = true →
    ∀ m ∈ (assembleResponse e matched c sample).outcomes,
      m.outcome = MatchOutcome.success := by
  cases c with
  | success =>
    intro _ m hm
    simp only [assembleResponse, List.mem_map] at hm
    obtain ⟨i, _, rfl⟩ := hm
    rfl
  | rejected r =>
    intro hsucc
    simp [assembleResponse, EditResponse.success] at hsucc
  | ambiguous =>
    by_cases hv : verifyEdit e sample
    · intro _ m hm
      simp only [assembleResponse, hv, if_true, List.mem_map] at hm
      obtain ⟨i, _, rfl⟩ := hm
      rfl
    · intro hsucc
      simp [assembleResponse, hv, EditResponse.success] at hsucc

theorem submitAfterRelogin_response_shape (respond : Nat → SubmitSignal)
    (e : ScrobbleEdit) (sample : List Track) :
    ∀ (k a : Nat) (r : EditResponse) (n : Nat),
      submitAfterRelogin respond e sample k a = (SubmitOutcome.response r, n) →
      ∃ matched c, r = assembleResponse e matched c sample := by
  intro k
  induction k with
  | zero =>
    intro a r n h
    rw [submitAfterRelogin.eq_def] at h
    cases hs : respond a <;> simp [hs] at h
    exact ⟨_, _, h.1.symm⟩
  | succ m ih =>
    intro a r n h
    rw [submitAfterRelogin.eq_def] at h
    cases hs : respond a <;> simp [hs] at h
    · exact ⟨_, _, h.1.symm⟩
    · exact ih (a + 1) r n h
    · exact ih (a + 1) r n h

theorem submitAttempts_response_shape (respond : Nat → SubmitSignal)
    (e : ScrobbleEdit) (sample : List Track) :
    ∀ (k a : Nat) (r : EditResponse) (n : Nat),
      submitAttempts respond e sample k a = (SubmitOutcome.response r, n) →
      ∃ matched c, r = assembleResponse e matched c sample := by
  intro k
  induction k with
  | zero =>
    intro a r n h
    rw [submitAttempts.eq_def] at h
    cases hs : respond a <;> simp [hs] at h
    · exact ⟨_, _, h.1.symm⟩
    · exact submitAfterRelogin_response_shape respond e sample 0 (a + 1) r n h
  | succ m ih =>
    intro a r n h
    rw [submitAttempts.eq_def] at h
    cases hs : respond a <;> simp [hs] at h
    · exact ⟨_, _, h.1.symm⟩
    · exact ih (a + 1) r n h
    · exact ih (a + 1) r n h
    · exact submitAfterRelogin_response_shape respond e sample (m + 1) (a + 1) r n h

theorem submitAttempts_all_rateLimited (respond : Nat → SubmitSignal)
    (e : ScrobbleEdit) (sample : List Track)
    (h : ∀ n, respond n = SubmitSignal.rateLimited) :
    ∀ (k a : Nat),
      submitAttempts respond e sample k a =
        (SubmitOutcome.editFailed "exhausted_retries", a + k + 1) := by
  intro k
  induction k with
  | zero => intro a; rw [submitAttempts.eq_def]; simp [h a]
  | succ m ih =>
    intro a
    rw [submitAttempts.eq_def]
    simp only [h a]
    have harith : a + 1 + m + 1 = a + (m + 1) + 1 := by omega
    rw [ih (a + 1), harith]

theorem submitAttempts_validation_immediate (respond : Nat → SubmitSignal)
    (e : ScrobbleEdit) (sample : List Track) (reason : String)
    (k : Nat) (a : Nat)
    (h : respond a = SubmitSignal.validationRejected reason) :
    submitAttempts respond e sample k a =
      (SubmitOutcome.editFailed (String.append "rejected:" reason), a + 1) := by
  rw [submitAttempts.eq_def]
  simp [h]

/-! ## Library browser lemmas -/

theorem browse_ok_length {α : Type} (st : ClientState) (pages : List (List α))
    (pageSize : Nat) (limit : Int) (l : List α) (tr : List (Nat × Nat))
    (h : browse st pages pageSize limit = (Except.ok l, tr)) :
    l.length = (tr.map Prod.snd).sum := by
  cases hs : st.session with
  | none => simp [browse, hs] at h
  | some s =>
    by_cases h0 : limit < 0
    · simp [browse, hs, h0] at h
    · simp [browse, hs, h0, paginate] at h
      obtain ⟨h1, h2⟩ := h
      rw [← h1, ← h2]
      exact paginateAux_length_eq_trace_sum pageSize pages _ 1

end LastfmEdit

namespace LastfmEdit

/-! ## The claims -/

/-- C3 counterexample: the claim quantifies over every `limit >= 0`, but
by the library-browser contract a `limit` of zero means "exhaust all
available pages", so `get_artists(limit=0)` over the 3-page demo backend
yields 6 artists, not at most 0. -/
theorem C3_limit_zero_counterexample :
    (get_artists demoClient demoBackend 0).1 =
      Except.ok [⟨"a1", 1⟩, ⟨"a2", 2⟩, ⟨"a3", 3⟩, ⟨"a4", 4⟩, ⟨"a5", 5⟩, ⟨"a6", 6⟩] ∧
    ¬ (([(⟨"a1", 1⟩ : Artist), ⟨"a2", 2⟩, ⟨"a3", 3⟩, ⟨"a4", 4⟩, ⟨"a5", 5⟩,
        ⟨"a6", 6⟩].length : Nat) ≤ 0) := by
  constructor
  · rfl
  · decide

/-- C3 (amended to explicit limits `>= 1`): a browsing call with a
positive limit yields at most `limit` entities, yields fewer than
`limit` only if it already yielded everything the backend serves before
a short page (the unbounded enumeration), and in the end-to-end
scenario — 3 pages of 2 artists, page size 2, no end-of-pages marker —
`get_artists(limit=5)` yields exactly the first 5 artists, requests
pages 1, 2, 3, and consumes only the first entity of page 3. -/
theorem C3_limit_bound_amended :
    (∀ (α : Type) (st : ClientState) (s : Session) (pages : List (List α))
       (pageSize : Nat) (limit : Int) (l : List α) (tr : List (Nat × Nat)),
       st.session = some s → 1 ≤ limit →
       browse st pages pageSize limit = (Except.ok l, tr) →
       l.length ≤ limit.toNat ∧
         (l.length < limit.toNat → l = (paginate pages pageSize none).1)) ∧
    get_artists demoClient demoBackend 5 =
      (Except.ok demoFirstFive, [(1, 2), (2, 2), (3, 1)]) := by
  constructor
  · intro α st s pages pageSize limit l tr hs hl hb
    have h0 : ¬ (limit < 0) := by omega
    have h1 : ¬ (limit = 0) := by omega
    simp [browse, hs, h0, h1, paginate] at hb
    obtain ⟨h2, h3⟩ := hb
    constructor
    · rw [← h2]
      exact paginateAux_length_le pageSize pages limit.toNat 1
    · intro hlt
      rw [← h2] at hlt ⊢
      rw [paginateAux_lt_eq_unbounded pageSize pages limit.toNat 1 hlt]
      rfl
  · rfl

/-- C3 witness: the general bound applied to the demo backend at
limit 5. -/
theorem C3_limit_bound_amended_witness :
    demoFirstFive.length ≤ (5 : Int).toNat ∧
      (demoFirstFive.length < (5 : Int).toNat →
        demoFirstFive = (paginate demoBackend.artistPages demoBackend.pageSize none).1) :=
  C3_limit_bound_amended.1 Artist demoClient demoSession demoBackend.artistPages
    demoBackend.pageSize 5 demoFirstFive [(1, 2), (2, 2), (3, 1)] rfl
    (by decide) rfl

/-- C5: constructing `ScrobbleEdit.for_artist(X, X)` (old value equal to
new value, a no-op edit) fails with `InvalidArgument` for every string
`X`; the no-op edit is rejected at construction, before submission. -/
theorem C5_for_artist_noop_rejected :
    ∀ X : String, ScrobbleEdit.for_artist X X = Except.error LfmError.invalidArgument := by
  intro X
  simp [ScrobbleEdit.for_artist]

/-- C10: `ScrobbleEdit.from_track_and_artist(track, artist)` supplied
with only the old track and artist names succeeds (returns an edit
descriptor, never an error): the no-field-differs rejection is not
triggered at this construction point. -/
theorem C10_from_track_and_artist_ok :
    ∀ (track_name artist_name : String),
      ScrobbleEdit.from_track_and_artist track_name artist_name =
        Except.ok { scope := EditScope.trackArtist, oldArtist := artist_name,
                    oldTrack := some track_name } := by
  intro t a
  rfl

/-- C7: for every library-browser operation, caller-input validation is
synchronous and precedes all network activity: without a session the
call fails with `NotAuthenticated` and issues no request (empty trace),
a negative limit fails with `InvalidArgument` and issues no request, and
a limit of zero means exhausting all available pages. -/
theorem C7_validation_before_network :
    ∀ (st : ClientState) (b : LibraryBackend) (artist : String) (limit : Int),
      (st.session = none →
        get_recent_tracks st b limit = (Except.error LfmError.notAuthenticated, []) ∧
        get_artists st b limit = (Except.error LfmError.notAuthenticated, []) ∧
        get_albums st b limit = (Except.error LfmError.notAuthenticated, []) ∧
        get_artist_tracks st b artist limit =
          (Except.error LfmError.notAuthenticated, [])) ∧
      (∀ s, st.session = some s → limit < 0 →
        get_recent_tracks st b limit = (Except.error LfmError.invalidArgument, []) ∧
        get_artists st b limit = (Except.error LfmError.invalidArgument, []) ∧
        get_albums st b limit = (Except.error LfmError.invalidArgument, []) ∧
        get_artist_tracks st b artist limit =
          (Except.error LfmError.invalidArgument, [])) ∧
      (∀ s, st.session = some s →
        (get_artists st b 0).1 =
          Except.ok (paginate b.artistPages b.pageSize none).1) := by
  intro st b artist limit
  refine ⟨fun hn => ?_, fun s hs hneg => ?_, fun s hs => ?_⟩
  · simp [get_recent_tracks, get_artists, get_albums, get_artist_tracks,
      browse, hn]
  · simp [get_recent_tracks, get_artists, get_albums, get_artist_tracks,
      browse, hs, hneg]
  · simp [get_artists, browse, hs]

/-- C7 witness: the unauthenticated client and a negative limit on the
demo backend. -/
theorem C7_validation_before_network_witness :
    get_artists { session := none } demoBackend 3 =
      (Except.error LfmError.notAuthenticated, []) ∧
    get_artists demoClient demoBackend (-1) =
      (Except.error LfmError.invalidArgument, []) :=
  ⟨((C7_validation_before_network { session := none } demoBackend "x" 3).1
      rfl).2.1,
   ((C7_validation_before_network demoClient demoBackend "x" (-1)).2.1
      demoSession rfl (by decide)).2.1⟩

/-- C8: a browsing call holds no cursor or cache across sequence
instances: running the same call twice issues the first call's request
trace followed by an identical second trace, and each run's first
request is for page 1. -/
theorem C8_reiteration_restarts :
    ∀ (α : Type) (st : ClientState) (s : Session) (pages : List (List α))
      (pageSize : Nat) (limit : Int),
      st.session = some s → 0 ≤ limit →
      (iterate_twice st pages pageSize limit).2 =
        (browse st pages pageSize limit).2 ++ (browse st pages pageSize limit).2 ∧
      ((browse st pages pageSize limit).2.head?.map Prod.fst) = some 1 := by
  intro α st s pages pageSize limit hs hl
  constructor
  · rfl
  · have h0 : ¬ (limit < 0) := by omega
    simp only [browse, hs, h0, if_false, paginate]
    exact paginateAux_trace_head pageSize _ 1 pages

/-- C8 witness: both runs over the demo backend re-request page 1. -/
theorem C8_reiteration_restarts_witness :
    (iterate_twice demoClient demoBackend.artistPages 2 5).2 =
      (browse demoClient demoBackend.artistPages 2 5).2 ++
        (browse demoClient demoBackend.artistPages 2 5).2 ∧
    ((browse demoClient demoBackend.artistPages 2 5).2.head?.map Prod.fst) =
      some 1 :=
  C8_reiteration_restarts Artist demoClient demoSession demoBackend.artistPages
    2 5 rfl (by decide)

/-- C9: every successful `get_recent_scrobbles`, `get_recent_tracks` and
`get_artists` call returns a fully materialized finite list together
with its completed request trace: the list's length (hence `len()` and
indexing) is determined at return time and equals the total number of
entities pulled by the page requests already issued during the call —
no fetching remains pending after return. -/
theorem C9_materialized_results :
    ∀ (st : ClientState) (b : LibraryBackend) (scrobblePage : Nat → List Track)
      (page : Nat) (limit : Int),
      (∀ l, get_recent_scrobbles st scrobblePage page = Except.ok l →
        l.length = (scrobblePage page).length) ∧
      (∀ l tr, get_recent_tracks st b limit = (Except.ok l, tr) →
        l.length = (tr.map Prod.snd).sum) ∧
      (∀ l tr, get_artists st b limit = (Except.ok l, tr) →
        l.length = (tr.map Prod.snd).sum) := by
  intro st b scrobblePage page limit
  refine ⟨fun l h => ?_, fun l tr h => ?_, fun l tr h => ?_⟩
  · cases hs : st.session with
    | none => simp [get_recent_scrobbles, hs] at h
    | some s =>
      simp only [get_recent_scrobbles, hs] at h
      cases h
      rfl
  · exact browse_ok_length st b.recentTrackPages b.pageSize limit l tr h
  · exact browse_ok_length st b.artistPages b.pageSize limit l tr h

/-- C9 witness: the demo `get_artists(limit=5)` run, whose 5 returned
artists match the 2 + 2 + 1 entities of its request trace. -/
theorem C9_materialized_results_witness :
    demoFirstFive.length =
      (([(1, 2), (2, 2), (3, 1)] : List (Nat × Nat)).map Prod.snd).sum :=
  (C9_materialized_results demoClient demoBackend (fun _ => []) 1 5).2.2
    demoFirstFive [(1, 2), (2, 2), (3, 1)] rfl

/-- C4: `find_recent_scrobble_for_track` walks pages 1..max_pages in
order: when every fetched page is delivered, the result is `ok` of the
first record of the concatenated pages (page order, then within-page
order) whose track field matches the queried track name and whose
artist field matches the queried artist name under the case-insensitive
whitespace-normalized comparison — `ok none` (not an error) when no
record matches; and a fetch error on the first page not preceded by a
match is propagated as-is. -/
theorem C4_find_recent_scrobble :
    ∀ (fetch : Nat → Except LfmError (List Track))
      (track_name artist_name : String) (max_pages : Nat)
      (pgsl : List (List Track))
      (rest : List (Except LfmError (List Track))) (e : LfmError),
      ((List.range max_pages).map (fun i => fetch (i + 1)) =
          pgsl.map Except.ok →
        find_recent_scrobble_for_track fetch track_name artist_name max_pages =
          Except.ok (pgsl.flatten.find? (trackMatches track_name artist_name))) ∧
      ((List.range max_pages).map (fun i => fetch (i + 1)) =
          pgsl.map Except.ok ++ Except.error e :: rest →
        (∀ p ∈ pgsl, p.find? (trackMatches track_name artist_name) = none) →
        find_recent_scrobble_for_track fetch track_name artist_name max_pages =
          Except.error e) := by
  intro fetch t a m pgsl rest e
  constructor
  · intro h
    unfold find_recent_scrobble_for_track
    rw [h]
    exact findScrobbleAux_map_ok t a pgsl
  · intro h hnone
    unfold find_recent_scrobble_for_track
    rw [h]
    exact findScrobbleAux_error t a e pgsl rest hnone

/-- C4 witness: querying `("Creep ", "Radiohead")` over the demo fetch
finds the stored `{track := "creep", artist := "radiohead"}` record on
page 2 — track field matched against track name and artist field
against artist name, normalized, never positionally swapped. -/
theorem C4_find_recent_scrobble_witness :
    find_recent_scrobble_for_track demoFetch "Creep " "Radiohead" 2 =
      Except.ok (some demoScrobble2) := by
  have h :=
    (C4_find_recent_scrobble demoFetch "Creep " "Radiohead" 2
      [[demoScrobble1], [demoScrobble2]] [] LfmError.transportError).1 rfl
  have h2 : ([[demoScrobble1], [demoScrobble2]].flatten).find?
      (trackMatches "Creep " "Radiohead") = some demoScrobble2 := by decide
  rw [h, h2]

/-- C1: an `EditResponse` produced by `edit_scrobble` reports
`success()` true only if every per-match outcome is `success`, and an
ambiguous backend response is reported as success only when the
read-verification positively finds the new values. -/
theorem C1_success_only_if_all_matches :
    (∀ (respond : Nat → SubmitSignal) (sample : List Track)
       (e : ScrobbleEdit) (r : EditResponse) (n : Nat),
       edit_scrobble respond sample e = (SubmitOutcome.response r, n) →
       r.success = true →
       ∀ m ∈ r.outcomes, m.outcome = MatchOutcome.success) ∧
    (∀ (e : ScrobbleEdit) (matched : List Nat) (sample : List Track),
       (assembleResponse e matched Classified.ambiguous sample).success = true →
       verifyEdit e sample = true) := by
  constructor
  · intro respond sample e r n h hsucc m hm
    simp only [edit_scrobble] at h
    split at h
    · simp at h
    · split at h
      · simp at h
      · obtain ⟨matched, c, rfl⟩ :=
          submitAttempts_response_shape respond e sample defaultMaxRetries 0 r n h
        exact assembleResponse_success_all e matched c sample hsucc m hm
  · intro e matched sample hsucc
    cases hv : verifyEdit e sample
    · exfalso
      simp [assembleResponse, hv, EditResponse.success] at hsucc
    · rfl

/-- C1 witness: a run accepted with an unambiguous success response on
attempt 0; its single per-match outcome is `success`. -/
theorem C1_success_only_if_all_matches_witness :
    (⟨7, MatchOutcome.success⟩ : MatchResult).outcome = MatchOutcome.success :=
  C1_success_only_if_all_matches.1
    (fun _ => SubmitSignal.accepted [7] Classified.success) [] demoEdit
    (assembleResponse demoEdit [7] Classified.success []) 1 rfl rfl
    ⟨7, MatchOutcome.success⟩ (by decide)

/-- C2: for a valid (non-no-op, fully specified) edit, a run whose every
attempt is rate-limited makes exactly `defaultMaxRetries + 1` attempts
(1 initial submission plus at most 3 resubmissions with backoff), fails
with `EditFailed("exhausted_retries")` and never reports success; a
validation-class rejection fails after exactly one attempt — it is
never retried. -/
theorem C2_rate_limit_exhaustion :
    ∀ (respond : Nat → SubmitSignal) (sample : List Track) (e : ScrobbleEdit),
      e.isNoOp = false →
      (e.scope ≠ EditScope.artistOnly && e.oldTrack = none) = false →
      ((∀ n, respond n = SubmitSignal.rateLimited) →
        edit_scrobble respond sample e =
          (SubmitOutcome.editFailed "exhausted_retries", defaultMaxRetries + 1) ∧
        ∀ r, (edit_scrobble respond sample e).1 ≠ SubmitOutcome.response r) ∧
      (∀ reason, respond 0 = SubmitSignal.validationRejected reason →
        edit_scrobble respond sample e =
          (SubmitOutcome.editFailed (String.append "rejected:" reason), 1)) := by
  intro respond sample e hNoOp hSpec
  have hu : edit_scrobble respond sample e =
      submitAttempts respond e sample defaultMaxRetries 0 := by
    unfold edit_scrobble
    rw [hNoOp, hSpec]
    simp
  constructor
  · intro hr
    have hall := submitAttempts_all_rateLimited respond e sample hr defaultMaxRetries 0
    constructor
    · rw [hu, hall]
      norm_num
    · intro r
      rw [hu, hall]
      simp
  · intro reason hr
    rw [hu,
      submitAttempts_validation_immediate respond e sample reason
        defaultMaxRetries 0 hr]

/-- C2 witness: the demo artist rename submitted against an
always-rate-limited backend exhausts the default budget after 4
attempts. -/
theorem C2_rate_limit_exhaustion_witness :
    edit_scrobble (fun _ => SubmitSignal.rateLimited) [] demoEdit =
      (SubmitOutcome.editFailed "exhausted_retries", defaultMaxRetries + 1) :=
  ((C2_rate_limit_exhaustion (fun _ => SubmitSignal.rateLimited) [] demoEdit
      (by decide) (by decide)).1 (fun _ => rfl)).1

/-- C6: when the backend accepts the credentials (and the probe accepts
the token minted for them), `login` succeeds and a subsequent
`validate_session()` returns true; when it rejects them, `login` fails
with `AuthError`, the client state is unchanged, and an unauthenticated
client still gets `NotAuthenticated` from `username()` and
`get_session()`. -/
theorem C6_login_validate :
    ∀ (w : AuthBackend) (st : ClientState) (u p : String),
      (w.validCreds u p = true →
        w.tokenAccepted (mkToken u p) = true →
        (login w st u p).1 = Except.ok () ∧
        validate_session w (login w st u p).2 = Except.ok true) ∧
      (w.validCreds u p = false →
        (login w st u p).1 = Except.error LfmError.authError ∧
        (login w st u p).2 = st ∧
        (st.session = none →
          username (login w st u p).2 = Except.error LfmError.notAuthenticated ∧
          get_session (login w st u p).2 =
            Except.error LfmError.notAuthenticated)) := by
  intro w st u p
  constructor
  · intro hc ht
    constructor
    · simp [login, hc]
    · simp [login, validate_session, hc, ht]
  · intro hc
    refine ⟨by simp [login, hc], by simp [login, hc], fun hn => ?_⟩
    constructor
    · simp [login, username, hc, hn]
    · simp [login, get_session, hc, hn]

/-- C6 witness: the demo backend accepts `alice`/`hunter2` and the
minted token; a wrong password is rejected and leaves the fresh client
unauthenticated. -/
theorem C6_login_validate_witness :
    ((login demoAuthBackend { session := none } "alice" "hunter2").1 =
        Except.ok () ∧
      validate_session demoAuthBackend
          (login demoAuthBackend { session := none } "alice" "hunter2").2 =
        Except.ok true) ∧
    (login demoAuthBackend { session := none } "alice" "wrong").1 =
      Except.error LfmError.authError :=
  ⟨(C6_login_validate demoAuthBackend { session := none } "alice" "hunter2").1
      (by decide) (by decide),
   ((C6_login_validate demoAuthBackend { session := none } "alice" "wrong").2
      (by decide)).1⟩

end LastfmEdit
